import Mathlib

/-!
Verification of the shichu four-pillar calendar engine.

The definitions below are shallow embeddings of the JavaScript source:
the authoritative engine is the Phase B+ handler in `src/api/shichusuimei.js`
(its final revision, lines 704-1782), the solar-term builder in
`src/lib/sekki.js`, and the void-branch routine in `src/api/meishi.js`.
JavaScript numbers used by this code are integers throughout the embedded
fragments (milliseconds, seconds, calendar fields, table indices), so they
are modelled as `Int`/`Nat`; JavaScript `%` truncates toward zero and is
modelled by `Int.tmod`, and `Math.floor` of a quotient by `Int.fdiv`.
The floating-point solar-ephemeris value (`solarLongitudeDeg` and the
signed angular difference built on it) is the one non-integer quantity;
where a definition consumes it, the value is taken as an oracle parameter
(`ℤ → ℚ` on millisecond instants), and theorems are stated for every
oracle, or under explicitly stated hypotheses about it.
-/

namespace Shichu

/-- The ten heavenly stems, table `STEMS` (src/api/shichusuimei.js:1377). -/
def STEMS : List String :=
  ["甲", "乙", "丙", "丁", "戊", "己", "庚", "辛", "壬", "癸"]

/-- The twelve earthly branches, table `BRANCHES` (src/api/shichusuimei.js:1378). -/
def BRANCHES : List String :=
  ["子", "丑", "寅", "卯", "辰", "巳", "午", "未", "申", "酉", "戌", "亥"]

/-- JS helper `mod(a, m) = ((a % m) + m) % m` (src/api/shichusuimei.js:1757).
JavaScript `%` truncates toward zero, hence `Int.tmod`. -/
def jsMod (a m : ℤ) : ℤ := ((a.tmod m) + m).tmod m

/-- A stem-branch pair `{ kan, shi }` as produced by the engine. -/
structure StemBranch where
  kan : String
  shi : String
deriving DecidableEq

/-- `sexagenaryFromIndex(idx) = { kan: STEMS[idx % 10], shi: BRANCHES[idx % 12] }`
(src/api/shichusuimei.js:1759-1761).  Every call site passes a value of
`mod(_, 60)`, hence a nonnegative index. -/
def sexagenaryFromIndex (idx : ℤ) : StemBranch :=
  ⟨STEMS.getD (idx.tmod 10).toNat "", BRANCHES.getD (idx.tmod 12).toNat ""⟩

/-- `sexagenaryIndex(kan, shi)`: linear search for the first `i` in `0..59`
whose pair matches, falling back to `0` (src/api/shichusuimei.js:1763-1769,
identically src/api/meishi.js:137-143). -/
def sexagenaryIndex (kan shi : String) : ℤ :=
  match (List.range 60).find? (fun i =>
      (sexagenaryFromIndex (i : ℤ)).kan == kan &&
      (sexagenaryFromIndex (i : ℤ)).shi == shi) with
  | some i => (i : ℤ)
  | none => 0

/-- `calcYearPillar(pillarYear)`: 1984 anchors 甲子
(src/api/shichusuimei.js:1380-1383). -/
def calcYearPillar (pillarYear : ℤ) : StemBranch :=
  sexagenaryFromIndex (jsMod (pillarYear - 1984) 60)

/-- `julianDayNumber(y, m, d)` (src/api/shichusuimei.js:1771-1776); the JS
`Math.floor` divisions are floor divisions, hence `Int.fdiv`. -/
def julianDayNumber (y m d : ℤ) : ℤ :=
  let a := (14 - m).fdiv 12
  let y2 := y + 4800 - a
  let m2 := m + 12 * a - 3
  d + (153 * m2 + 2).fdiv 5 + 365 * y2 + y2.fdiv 4 - y2.fdiv 100 + y2.fdiv 400 - 32045

/-- `toJdnAtUtcMidnight(y, m, d)` (src/api/shichusuimei.js:448-461), the
Phase A copy of the same Julian-day-number formula. -/
def toJdnAtUtcMidnight (y m d : ℤ) : ℤ :=
  let a := (14 - m).fdiv 12
  let y2 := y + 4800 - a
  let m2 := m + 12 * a - 3
  d + (153 * m2 + 2).fdiv 5 + 365 * y2 + y2.fdiv 4 - y2.fdiv 100 + y2.fdiv 400 - 32045

/-- `calcDayPillarSimple(y, m, d)` (src/api/shichusuimei.js:463-470):
anchors 1984-02-02 as cycle index 0 (甲子) and reduces the JDN difference
mod 60; the inline `(diff % 60 + 60) % 60` uses JS truncating `%`. -/
def calcDayPillarSimple (y m d : ℤ) : StemBranch :=
  let baseJdn := toJdnAtUtcMidnight 1984 2 2
  let jdn := toJdnAtUtcMidnight y m d
  let diff := jdn - baseJdn
  let idx := ((diff.tmod 60) + 60).tmod 60
  ⟨STEMS.getD (idx.tmod 10).toNat "", BRANCHES.getD (idx.tmod 12).toNat ""⟩

/-- The `mod(jdn + 47, 60)` day-pillar core shared by `calcDayPillar`
(src/api/shichusuimei.js:1428-1430) and `calcDayPillar23`
(src/api/shichusuimei.js:251-253), applied to the (possibly cutover-rolled)
calendar date. -/
def dayPillarAnchor47 (y m d : ℤ) : StemBranch :=
  sexagenaryFromIndex (jsMod (julianDayNumber y m d + 47) 60)

/-- `quantByPrecision(sec, precision)` (src/api/shichusuimei.js:1131-1134):
quantize a raw JST second count to the policy precision; `"minute"` floors
to whole minutes, anything else (the `"second"` branch) keeps seconds. -/
def quantByPrecision (sec : ℤ) (precision : String) : ℤ :=
  if precision = "minute" then sec.fdiv 60 else sec

/-- `isBeforeBoundaryPrec(tSecRaw, boundarySecRaw, precision, tieBreak)`
(src/api/shichusuimei.js:1090-1099): compare after quantization; on a tie at
the chosen precision the result is `tieBreak === "before"`. -/
def isBeforeBoundaryPrec (tSecRaw boundarySecRaw : ℤ) (precision tieBreak : String) : Bool :=
  let t := quantByPrecision tSecRaw precision
  let b := quantByPrecision boundarySecRaw precision
  if t < b then true
  else if t > b then false
  else tieBreak == "before"

/-- The year-pillar fragment of the Phase B+ handler
(src/api/shichusuimei.js:783-799).  The handler has the standard (civil)
instant, the corrected (used) instant, the risshun instant of the used
instant's civil year, and the `boundaryTimeRef` policy value all in scope;
the pillar year is computed from `usedIsBeforeRisshun` alone, so the
`stdJstSecRaw` and `boundaryTimeRef` arguments are carried but unused,
exactly as in the source dataflow. -/
def handlerYearPillarYear (stdJstSecRaw usedJstSecRaw risshunSecJst usedY : ℤ)
    (precision tieBreak boundaryTimeRef : String) : ℤ :=
  if isBeforeBoundaryPrec usedJstSecRaw risshunSecJst precision tieBreak then usedY - 1
  else usedY

/-- The reference-instant selection of `calcDayPillar`
(src/api/shichusuimei.js:1416-1417): `boundaryTimeRef === "standard"`
selects the civil instant, otherwise the corrected one.  This is the only
place in the Phase B+ handler where `boundaryTimeRef` is consulted. -/
def dayPillarTimeRef {α : Type} (std used : α) (boundaryTimeRef : String) : α :=
  if boundaryTimeRef = "standard" then std else used

/-- JavaScript `String.prototype.trim`: strip leading and trailing
whitespace, written over the character list so it evaluates in proofs. -/
def jsTrim (s : String) : String :=
  String.mk (((s.toList.dropWhile Char.isWhitespace).reverse.dropWhile
    Char.isWhitespace).reverse)

/-- `safeString(v)` (src/api/shichusuimei.js:1009-1011): a string is trimmed,
any non-string (modelled as an absent field) becomes `""`. -/
def safeString (v : Option String) : String :=
  match v with
  | some s => jsTrim s
  | none => ""

/-- JavaScript `s || fallback` on strings: the empty string is falsy. -/
def jsOr (s fallback : String) : String :=
  if s = "" then fallback else s

/-- The regular expression `^\d{4}-\d{2}-\d{2}$` used for the `date` field
(src/api/shichusuimei.js:979). -/
def dateFormatOk (s : String) : Bool :=
  match s.toList with
  | [a, b, c, d, e, f, g, h, i, j] =>
    a.isDigit && b.isDigit && c.isDigit && d.isDigit && e == '-' &&
    f.isDigit && g.isDigit && h == '-' && i.isDigit && j.isDigit
  | _ => false

/-- The regular expression `^\d{2}:\d{2}(:\d{2})?$` used for the `time`
field (src/api/shichusuimei.js:982). -/
def timeFormatOk (s : String) : Bool :=
  match s.toList with
  | [a, b, c, d, e] => a.isDigit && b.isDigit && c == ':' && d.isDigit && e.isDigit
  | [a, b, c, d, e, f, g, h] =>
    a.isDigit && b.isDigit && c == ':' && d.isDigit && e.isDigit && f == ':' &&
    g.isDigit && h.isDigit
  | _ => false

/-- `normalizeEnum(v, allowed, fallback)` (src/api/shichusuimei.js:1013-1015):
an unrecognized value is replaced by the fallback, not rejected. -/
def normalizeEnum (v : String) (allowed : List String) (fallback : String) : String :=
  if allowed.contains v then v else fallback

/-- The `birthPlace` sub-object of a request body. -/
structure BirthPlaceBody where
  country : Option String
  pref : Option String
deriving DecidableEq

/-- A parsed JSON request body as consumed by `normalizeInput`; fields that
are absent or not strings are modelled as `none` (exactly the values
`safeString` maps to `""`). -/
structure RequestBody where
  date : Option String
  time : Option String
  sex : Option String
  birthPlace : Option BirthPlaceBody
  timeMode : Option String
  dayBoundaryMode : Option String
  boundaryTimeRef : Option String
  sekkiBoundaryPrecision : Option String
  sekkiBoundaryTieBreak : Option String
deriving DecidableEq

/-- The normalized input produced by `normalizeInput`. -/
structure NormInput where
  date : String
  time : String
  sex : String
  country : String
  pref : String
  timeMode : String
  dayBoundaryMode : String
  boundaryTimeRef : String
  sekkiBoundaryPrecision : String
  sekkiBoundaryTieBreak : String
deriving DecidableEq

/-- `normalizeInput(body)` of the Phase B+ handler
(src/api/shichusuimei.js:977-1007).  A malformed `date` or `time` throws
(modelled as `Except.error` with the source's message); every policy field
goes through `normalizeEnum`, so an unrecognized policy value is silently
replaced by its documented default.  `String(body?.dayBoundaryMode || "24")`
does not trim, unlike the `safeString` fields. -/
def normalizeInput (body : RequestBody) : Except String NormInput :=
  let date := safeString body.date
  if !(dateFormatOk date) then Except.error "Invalid date (expected YYYY-MM-DD)"
  else
    let timeRaw := safeString body.time
    if timeRaw ≠ "" && !(timeFormatOk timeRaw) then
      Except.error "Invalid time (expected HH:MM or HH:MM:SS)"
    else
      let sex := safeString body.sex
      let country := jsOr (safeString (body.birthPlace.bind (fun bp => bp.country))) "JP"
      let pref := jsOr (safeString (body.birthPlace.bind (fun bp => bp.pref))) "東京都"
      let timeMode := normalizeEnum (jsOr (safeString body.timeMode) "standard")
        ["standard", "mean_solar", "true_solar"] "standard"
      let dayBoundaryMode := normalizeEnum (jsOr (body.dayBoundaryMode.getD "") "24")
        ["23", "24"] "24"
      let boundaryTimeRef := normalizeEnum (jsOr (safeString body.boundaryTimeRef) "used")
        ["standard", "used"] "used"
      let sekkiBoundaryPrecision :=
        normalizeEnum (jsOr (safeString body.sekkiBoundaryPrecision) "minute")
          ["minute", "second"] "minute"
      let sekkiBoundaryTieBreak :=
        normalizeEnum (jsOr (safeString body.sekkiBoundaryTieBreak) "after")
          ["after", "before"] "after"
      Except.ok
        ⟨date, timeRaw, if sex = "F" ∨ sex = "M" then sex else "", country, pref,
          timeMode, dayBoundaryMode, boundaryTimeRef, sekkiBoundaryPrecision,
          sekkiBoundaryTieBreak⟩

/-- A request body carrying an unrecognized value in every policy field,
with a well-formed date and time. -/
def unrecognizedPolicyBody : RequestBody :=
  ⟨some "2000-02-04", some "12:00", none, none, some "lunar", some "25",
    some "corrected", some "hour", some "random"⟩

/-- The five elements; the `elem` values of the `STEM_INFO` table
(src/api/shichusuimei.js:1489-1500) are exactly these five strings, so they
are modelled as an enumeration. -/
inductive Element
  | wood
  | fire
  | earth
  | metal
  | water
deriving DecidableEq, Fintype

/-- One row of `STEM_INFO`: element and polarity of a stem. -/
structure StemInfo where
  elem : Element
  yin : Bool
deriving DecidableEq, Fintype

/-- The `STEM_INFO` lookup table (src/api/shichusuimei.js:1489-1500); a
string outside the ten stems has no entry. -/
def STEM_INFO : String → Option StemInfo
  | "甲" => some ⟨Element.wood, false⟩
  | "乙" => some ⟨Element.wood, true⟩
  | "丙" => some ⟨Element.fire, false⟩
  | "丁" => some ⟨Element.fire, true⟩
  | "戊" => some ⟨Element.earth, false⟩
  | "己" => some ⟨Element.earth, true⟩
  | "庚" => some ⟨Element.metal, false⟩
  | "辛" => some ⟨Element.metal, true⟩
  | "壬" => some ⟨Element.water, false⟩
  | "癸" => some ⟨Element.water, true⟩
  | _ => none

/-- The hidden-stem table `ZOKAN` (src/api/shichusuimei.js:1467-1480). -/
def ZOKAN : String → Option (List String)
  | "子" => some ["癸"]
  | "丑" => some ["己", "癸", "辛"]
  | "寅" => some ["甲", "丙", "戊"]
  | "卯" => some ["乙"]
  | "辰" => some ["戊", "乙", "癸"]
  | "巳" => some ["丙", "戊", "庚"]
  | "午" => some ["丁", "己"]
  | "未" => some ["己", "丁", "乙"]
  | "申" => some ["庚", "壬", "戊"]
  | "酉" => some ["辛"]
  | "戌" => some ["戊", "辛", "丁"]
  | "亥" => some ["壬", "甲"]
  | _ => none

/-- `getZokan(branch)` (src/api/shichusuimei.js:1482-1484): the table row
(a fresh copy in JS), or `[]` for an unknown branch. -/
def getZokan (branch : String) : List String :=
  match ZOKAN branch with
  | some l => l
  | none => []

/-- The generation cycle `gen` (src/api/shichusuimei.js:1521). -/
def genMap : Element → Element
  | Element.wood => Element.fire
  | Element.fire => Element.earth
  | Element.earth => Element.metal
  | Element.metal => Element.water
  | Element.water => Element.wood

/-- The domination cycle `ctl` (src/api/shichusuimei.js:1522). -/
def ctlMap : Element → Element
  | Element.wood => Element.earth
  | Element.earth => Element.water
  | Element.water => Element.fire
  | Element.fire => Element.metal
  | Element.metal => Element.wood

/-- `elementRelation(dayElem, otherElem)` (src/api/shichusuimei.js:1519-1529),
returning the source's relation strings, with `"none"` as the final
fall-through. -/
def elementRelation (dayElem otherElem : Element) : String :=
  if dayElem = otherElem then "same"
  else if genMap dayElem = otherElem then "day_creates_other"
  else if genMap otherElem = dayElem then "other_creates_day"
  else if ctlMap dayElem = otherElem then "day_controls_other"
  else if ctlMap otherElem = dayElem then "other_controls_day"
  else "none"

/-- `tenDeityOf(dayStem, otherStem)` (src/api/shichusuimei.js:1502-1517);
JS returns `null` (here `none`) for a falsy other stem, for a stem outside
the table, and on the unreachable relation fall-through. -/
def tenDeityOf (dayStem otherStem : String) : Option String :=
  if otherStem = "" then none
  else
    match STEM_INFO dayStem, STEM_INFO otherStem with
    | some d, some o =>
      let sameYinYang := d.yin = o.yin
      let rel := elementRelation d.elem o.elem
      if rel = "same" then some (if sameYinYang then "比肩" else "劫財")
      else if rel = "day_creates_other" then some (if sameYinYang then "食神" else "傷官")
      else if rel = "other_creates_day" then some (if sameYinYang then "印綬" else "偏印")
      else if rel = "day_controls_other" then some (if sameYinYang then "正財" else "偏財")
      else if rel = "other_controls_day" then some (if sameYinYang then "正官" else "七殺")
      else none
    | _, _ => none

/-- The ten named ten-deity categories produced by `tenDeityOf`. -/
def TEN_DEITY_NAMES : List String :=
  ["比肩", "劫財", "食神", "傷官", "印綬", "偏印", "正財", "偏財", "正官", "七殺"]

/-- The five-element counters object of `calcFiveElementsCounts`. -/
structure FiveCounts where
  wood : ℕ
  fire : ℕ
  earth : ℕ
  metal : ℕ
  water : ℕ
deriving DecidableEq

/-- `counts[info.elem] += 1`: bump the counter of one element. -/
def bumpElem (c : FiveCounts) (e : Element) : FiveCounts :=
  match e with
  | Element.wood => { c with wood := c.wood + 1 }
  | Element.fire => { c with fire := c.fire + 1 }
  | Element.earth => { c with earth := c.earth + 1 }
  | Element.metal => { c with metal := c.metal + 1 }
  | Element.water => { c with water := c.water + 1 }

/-- One loop body of `calcFiveElementsCounts`: look the stem up in
`STEM_INFO` and, when found, bump its element's counter. -/
def addStemCount (c : FiveCounts) (s : String) : FiveCounts :=
  match STEM_INFO s with
  | some info => bumpElem c info.elem
  | none => c

/-- `calcFiveElementsCounts(stems, branches)`
(src/api/shichusuimei.js:1553-1571): count the elements of all visible
stems, then of all hidden stems of the given branches (the `note` string of
the JS result is display-only and omitted). -/
def calcFiveElementsCounts (stems branches : List String) : FiveCounts :=
  let c1 := stems.foldl addStemCount ⟨0, 0, 0, 0, 0⟩
  branches.foldl (fun c b => (getZokan b).foldl addStemCount c) c1

/-- The total of the five counters. -/
def countsSum (c : FiveCounts) : ℕ :=
  c.wood + c.fire + c.earth + c.metal + c.water

/-- One annual luck-cycle entry as built by `buildNenunList`
(src/api/shichusuimei.js:1745-1752).  The JS object literal contains only
`pillarYear`, `kan`, `shi` and `tenDeity` (set to `null`); it has no void
field, so reading a void flag on an entry yields `undefined` — modelled by
the `isVoidPeriod` field being fixed to `none`. -/
structure NenunEntry where
  pillarYear : ℤ
  kan : String
  shi : String
  tenDeity : Option String
  isVoidPeriod : Option Bool
deriving DecidableEq

/-- `buildNenunList(centerYearByRisshun)` (src/api/shichusuimei.js:1745-1752):
the 13 years centered on the risshun-determined year, each mapped through
`calcYearPillar`. -/
def buildNenunList (centerYearByRisshun : ℤ) : List NenunEntry :=
  (List.range 13).map (fun i =>
    let y := centerYearByRisshun - 6 + (i : ℤ)
    let p := calcYearPillar y
    ⟨y, p.kan, p.shi, none, none⟩)

/-- `calcKuuBouFromDayPillar(dayKan, dayShi)` (src/api/meishi.js:144-153):
the two void branches of the day pillar's decade group.  `BRANCHES.indexOf`
always finds `startBranch`, so the JS `-1` case is unreachable. -/
def calcKuuBouFromDayPillar (dayKan dayShi : String) : List String :=
  if dayKan = "" ∨ dayShi = "" then []
  else
    let idx := sexagenaryIndex dayKan dayShi
    let junStart := idx - idx.tmod 10
    let startBranch := BRANCHES.getD (junStart.tmod 12).toNat ""
    let startBi : ℤ := (BRANCHES.indexOf startBranch : ℕ)
    let v1 := BRANCHES.getD (jsMod (startBi - 2) 12).toNat ""
    let v2 := BRANCHES.getD (jsMod (startBi - 1) 12).toNat ""
    [v1, v2]

/-- The branches covered by the decade group of sexagenary index `idx`:
those of the ten indices sharing `idx`'s ten-block.  This is the spec's
notion of "the branches of the day pillar's ten-day stem cycle", used to
state what `calcKuuBouFromDayPillar` excludes. -/
def decadeGroupBranches (idx : ℤ) : List String :=
  (List.range 10).map (fun k =>
    BRANCHES.getD ((idx - idx.tmod 10 + (k : ℤ)).tmod 12).toNat "")

/-- One row of the 12-term table `JIE12_FOR_MONTH` (src/lib/sekki.js:197-210). -/
structure JieSpec where
  angle : ℤ
  name : String
deriving DecidableEq

/-- The table `JIE12_FOR_MONTH` (src/lib/sekki.js:197-210). -/
def JIE12_FOR_MONTH : List JieSpec :=
  [⟨315, "立春"⟩, ⟨345, "啓蟄"⟩, ⟨15, "清明"⟩, ⟨45, "立夏"⟩, ⟨75, "芒種"⟩, ⟨105, "小暑"⟩,
   ⟨135, "立秋"⟩, ⟨165, "白露"⟩, ⟨195, "寒露"⟩, ⟨225, "立冬"⟩, ⟨255, "大雪"⟩, ⟨285, "小寒"⟩]

/-- A solar-term event `{ name, angle, timeUtc }` as returned by
`buildJie12Utc`; the `Date` instant is its millisecond value. -/
structure JieEvent where
  name : String
  angle : ℤ
  timeUtcMs : ℤ
deriving DecidableEq

/-- `buildJie12Utc(year)` (src/lib/sekki.js:224-234): one event per table
row, then sort ascending by instant (JS `Array.prototype.sort` with the
`a.timeUtc - b.timeUtc` comparator is stable, matching `List.mergeSort`).
The instant of each angle is produced by `approxJdForTargetLongitude` +
`findTimeForSolarLongitudeUtc`, a floating-point computation abstracted
here as the oracle `termTime year angle` in milliseconds. -/
def buildJie12Utc (termTime : ℤ → ℤ → ℤ) (year : ℤ) : List JieEvent :=
  (JIE12_FOR_MONTH.map (fun j => JieEvent.mk j.name j.angle (termTime year j.angle))).mergeSort
    (fun a b => decide (a.timeUtcMs ≤ b.timeUtcMs))

/-- `guessSolarTermDateJst(year, angle)` (src/api/shichusuimei.js:1302-1313):
the fixed month/day guess per angle, defaulting to March 21. -/
def guessSolarTermDateJst (year angle : ℤ) : ℤ × ℤ × ℤ :=
  let md : ℤ × ℤ :=
    if angle = 315 then (2, 4) else if angle = 330 then (2, 19)
    else if angle = 345 then (3, 6) else if angle = 0 then (3, 21)
    else if angle = 15 then (4, 5) else if angle = 30 then (4, 20)
    else if angle = 45 then (5, 6) else if angle = 60 then (5, 21)
    else if angle = 75 then (6, 6) else if angle = 90 then (6, 21)
    else if angle = 105 then (7, 7) else if angle = 120 then (7, 23)
    else if angle = 135 then (8, 8) else if angle = 150 then (8, 23)
    else if angle = 165 then (9, 8) else if angle = 180 then (9, 23)
    else if angle = 195 then (10, 8) else if angle = 210 then (10, 23)
    else if angle = 225 then (11, 7) else if angle = 240 then (11, 22)
    else if angle = 255 then (12, 7) else if angle = 270 then (12, 22)
    else if angle = 285 then (1, 6) else if angle = 300 then (1, 20)
    else (3, 21)
  (year, md.1, md.2)

/-- `Date.UTC(y, m-1, d, hh, mi, ss)` in milliseconds, for civil dates with
an arbitrary (possibly negative) hour — JS normalizes hours by plain
millisecond arithmetic, which this formula reproduces; 2440588 is the JDN
of the epoch day 1970-01-01. -/
def utcMs (y m d hh mi ss : ℤ) : ℤ :=
  (julianDayNumber y m d - 2440588) * 86400000 + hh * 3600000 + mi * 60000 + ss * 1000

/-- The result record of `findSolarTermTimeJst` / `formatTermResultJst`
(src/api/shichusuimei.js:1277-1296): the angle and the raw JST second count
`secJst` (the display strings `timeJst`/`timeJstSec` are formatting of the
same instant and are omitted).  The JS object has no degraded marker of any
kind; reading one yields `undefined`, modelled by `degraded` fixed to
`none`. -/
structure TermResult where
  angle : ℤ
  secJst : ℤ
  degraded : Option Bool
deriving DecidableEq

/-- `formatTermResultJst(dateUtc, precision, angle)`
(src/api/shichusuimei.js:1277-1296): `secJst = Math.floor((ms + 9h)/1000)`. -/
def formatTermResultJst (dateUtcMs angle : ℤ) : TermResult :=
  ⟨angle, (dateUtcMs + 9 * 3600 * 1000).fdiv 1000, none⟩

/-- The scan loop body of `findSolarTermTimeJst`
(src/api/shichusuimei.js:1225-1233 and 1240-1248): step forward by
`stepMs`, evaluating the signed angular difference oracle, until a
sign change (or touch of zero) is found between consecutive samples;
`steps` is the remaining number of loop iterations. -/
def scanAux (diff : ℤ → ℚ) (stepMs : ℤ) : ℕ → ℤ → ℚ → Option (ℤ × ℤ)
  | 0, _, _ => none
  | n + 1, t0, f0 =>
    let t := t0 + stepMs
    let fv := diff t
    if (f0 ≤ 0 ∧ 0 ≤ fv) ∨ (0 ≤ f0 ∧ fv ≤ 0) then some (t0, t)
    else scanAux diff stepMs n t fv

/-- The full scan `for (let t = t0 + stepMs; t <= end; t += stepMs)`: the
iteration count is `⌊(endMs − startMs) / stepMs⌋`. -/
def scanForSignChange (diff : ℤ → ℚ) (startMs endMs stepMs : ℤ) : Option (ℤ × ℤ) :=
  scanAux diff stepMs ((endMs - startMs).fdiv stepMs).toNat startMs (diff startMs)

/-- The bisection loop of `findSolarTermTimeJst`
(src/api/shichusuimei.js:1258-1271): up to 80 iterations while the bracket
is wider than the tolerance; `Math.floor((lo + hi) / 2)` is `Int.fdiv`. -/
def bisectAux (diff : ℤ → ℚ) (tolMs : ℤ) : ℕ → ℤ → ℤ → ℤ × ℤ
  | 0, lo, hi => (lo, hi)
  | n + 1, lo, hi =>
    if hi - lo > tolMs then
      let mid := (lo + hi).fdiv 2
      let fmid := diff mid
      let flo := diff lo
      if (flo ≤ 0 ∧ 0 ≤ fmid) ∨ (0 ≤ flo ∧ fmid ≤ 0) then bisectAux diff tolMs n lo mid
      else bisectAux diff tolMs n mid hi
    else (lo, hi)

/-- `findSolarTermTimeJst(year, targetAngleDeg, precision)`
(src/api/shichusuimei.js:1213-1275).  `diff t` stands for the
floating-point `angleDiffSigned(solarLongitudeDeg(new Date(t)),
targetAngleDeg)`, taken as an oracle.  Scan 8 days from the guessed date in
1-hour steps; if no sign change, rescan a window widened by 5 days on each
side; if still none, return the deterministic fallback — the guessed date
at 12:00 JST — without raising; otherwise bisect the bracket down to the
precision tolerance and return the upper end. -/
def findSolarTermTimeJst (diff : ℤ → ℚ) (year targetAngleDeg : ℤ)
    (precision : String) : TermResult :=
  let guess := guessSolarTermDateJst year targetAngleDeg
  let startMs := utcMs guess.1 guess.2.1 guess.2.2 (0 - 9) 0 0
  let endMs := startMs + 8 * 86400000
  let stepMs : ℤ := 3600000
  let bracket :=
    match scanForSignChange diff startMs endMs stepMs with
    | some b => some b
    | none =>
      scanForSignChange diff (startMs - 5 * 86400000) (endMs + 5 * 86400000) stepMs
  match bracket with
  | none =>
    formatTermResultJst (utcMs guess.1 guess.2.1 guess.2.2 (12 - 9) 0 0) targetAngleDeg
  | some (t0, t1) =>
    let tolMs : ℤ := if precision = "second" then 1000 else 60000
    let lo := min t0 t1
    let hi := max t0 t1
    let r := bisectAux diff tolMs 80 lo hi
    formatTermResultJst r.2 targetAngleDeg

end Shichu

namespace Shichu

theorem neg_tmod (a b : ℤ) : (-a).tmod b = -(a.tmod b) := by
  simp [Int.tmod_def, Int.neg_tdiv, Int.mul_neg]
  ring

/-- The JS idiom `((x % m) + m) % m` (truncating `%`) computes the
mathematical (Euclidean) remainder for positive `m`. -/
theorem jsMod_eq_emod (a m : ℤ) (hm : 0 < m) : jsMod a m = a % m := by
  unfold jsMod
  have hub : a.tmod m < m := Int.tmod_lt_of_pos a hm
  have hlb : -m < a.tmod m := by
    have h2 : (-a).tmod m < m := Int.tmod_lt_of_pos (-a) hm
    have h3 : (-a).tmod m = -(a.tmod m) := neg_tmod a m
    omega
  have hnn : 0 ≤ a.tmod m + m := by omega
  rw [Int.tmod_eq_emod hnn (le_of_lt hm)]
  have hd : a.tmod m = a - m * a.tdiv m := Int.tmod_def a m
  rw [hd]
  have hsh : a - m * a.tdiv m + m = a + m * (1 - a.tdiv m) := by ring
  rw [hsh, Int.add_mul_emod_self_left]

/-- C6: for every index i in [0,60), converting i to a (stem, branch) pair via
(STEMS[i mod 10], BRANCHES[i mod 12]) and then converting that pair back to an
index with the engine's linear search yields i again; hence each of the 60
valid stem-branch pairs has a unique index in [0,60). -/
theorem sexagenary_roundtrip : ∀ i : ℕ, i < 60 →
    sexagenaryIndex (sexagenaryFromIndex (i : ℤ)).kan (sexagenaryFromIndex (i : ℤ)).shi
      = (i : ℤ) := by
  decide

/-- Witness for C6: the round trip holds at the concrete index 37. -/
theorem sexagenary_roundtrip_witness :
    (37 : ℕ) < 60 ∧
    sexagenaryIndex (sexagenaryFromIndex ((37 : ℕ) : ℤ)).kan
      (sexagenaryFromIndex ((37 : ℕ) : ℤ)).shi = ((37 : ℕ) : ℤ) :=
  ⟨by decide, sexagenary_roundtrip 37 (by decide)⟩

/-- C10: for every calendar date (y, m, d), the day-pillar index anchored at
1984-02-02 = 甲子 (`calcDayPillarSimple`) agrees with the `(JDN + 47) mod 60`
anchor used by `calcDayPillar` / `calcDayPillar23`, so both engine variants
assign the same day stem-branch to every date; moreover the base date
1984-02-02 itself maps to cycle index 0, the pair 甲子. -/
theorem dayPillar_anchors_agree (y m d : ℤ) :
    calcDayPillarSimple y m d = dayPillarAnchor47 y m d ∧
    calcDayPillarSimple 1984 2 2 = ⟨"甲", "子"⟩ := by
  constructor
  · have hbase : toJdnAtUtcMidnight 1984 2 2 = 2445733 := by decide
    have hjdn : toJdnAtUtcMidnight y m d = julianDayNumber y m d := rfl
    have h2 : julianDayNumber y m d + 47 = (julianDayNumber y m d - 2445733) + 60 * 40763 := by
      ring
    have hidx : ((julianDayNumber y m d - 2445733).tmod 60 + 60).tmod 60
        = ((julianDayNumber y m d + 47).tmod 60 + 60).tmod 60 := by
      have e1 : ((julianDayNumber y m d - 2445733).tmod 60 + 60).tmod 60
          = jsMod (julianDayNumber y m d - 2445733) 60 := rfl
      have e2 : ((julianDayNumber y m d + 47).tmod 60 + 60).tmod 60
          = jsMod (julianDayNumber y m d + 47) 60 := rfl
      rw [e1, e2, jsMod_eq_emod _ 60 (by norm_num), jsMod_eq_emod _ 60 (by norm_num), h2,
        Int.add_mul_emod_self_left]
    simp only [calcDayPillarSimple, dayPillarAnchor47, sexagenaryFromIndex, jsMod, hjdn, hbase,
      hidx]
  · decide

/-- C4: whenever an instant and a boundary quantize to the same value at the
policy precision, the before-boundary decision is `true` under tie-break
`"before"` and `false` under tie-break `"after"`; in particular flipping the
tie-break flips the decision on every such tied input. -/
theorem tieBreak_decides_ties (t b : ℤ) (precision : String)
    (h : quantByPrecision t precision = quantByPrecision b precision) :
    isBeforeBoundaryPrec t b precision "before" = true ∧
    isBeforeBoundaryPrec t b precision "after" = false ∧
    isBeforeBoundaryPrec t b precision "before" ≠
      isBeforeBoundaryPrec t b precision "after" := by
  unfold isBeforeBoundaryPrec
  rw [h]
  simp

/-- Witness for C4: seconds 119 and 61 fall in the same minute, so at minute
precision the decision is exactly the tie-break. -/
theorem tieBreak_decides_ties_witness :
    quantByPrecision 119 "minute" = quantByPrecision 61 "minute" ∧
    (isBeforeBoundaryPrec 119 61 "minute" "before" = true ∧
     isBeforeBoundaryPrec 119 61 "minute" "after" = false ∧
     isBeforeBoundaryPrec 119 61 "minute" "before" ≠
       isBeforeBoundaryPrec 119 61 "minute" "after") :=
  ⟨by decide, tieBreak_decides_ties 119 61 "minute" (by decide)⟩

theorem normalizeEnum_mem (v fb : String) (allowed : List String) (hfb : fb ∈ allowed) :
    normalizeEnum v allowed fb ∈ allowed := by
  unfold normalizeEnum
  split
  case isTrue h => exact List.mem_of_elem_eq_true h
  case isFalse h => exact hfb

/-- C3 counterexample: a request body whose five policy fields all carry
unrecognized values (`"lunar"`, `"25"`, `"corrected"`, `"hour"`,
`"random"`) is not rejected — `normalizeInput` succeeds and silently
replaces every one of them by its documented default. -/
theorem normalizeInput_coerces_counterexample :
    normalizeInput unrecognizedPolicyBody =
      Except.ok
        ⟨"2000-02-04", "12:00", "", "JP", "東京都", "standard", "24", "used", "minute",
          "after"⟩ := by
  rfl

/-- C3 amended: for every request body with a well-formed date and time,
`normalizeInput` succeeds — unrecognized policy values never produce an
error; each policy field of the result is coerced into its allowed set
(falling back to the documented default), so only malformed `date`/`time`
strings are rejected eagerly. -/
theorem normalizeInput_policy_defaults (body : RequestBody)
    (hd : dateFormatOk (safeString body.date) = true)
    (ht : safeString body.time = "" ∨ timeFormatOk (safeString body.time) = true) :
    ∃ r : NormInput, normalizeInput body = Except.ok r ∧
      r.timeMode ∈ ["standard", "mean_solar", "true_solar"] ∧
      r.dayBoundaryMode ∈ ["23", "24"] ∧
      r.boundaryTimeRef ∈ ["standard", "used"] ∧
      r.sekkiBoundaryPrecision ∈ ["minute", "second"] ∧
      r.sekkiBoundaryTieBreak ∈ ["after", "before"] := by
  unfold normalizeInput
  rcases ht with h | h
  · simp only [hd, h, Bool.not_true, Bool.false_eq_true, if_false, ne_eq,
      not_true_eq_false, decide_False, Bool.false_and]
    exact ⟨_, rfl, normalizeEnum_mem _ _ _ (by decide), normalizeEnum_mem _ _ _ (by decide),
      normalizeEnum_mem _ _ _ (by decide), normalizeEnum_mem _ _ _ (by decide),
      normalizeEnum_mem _ _ _ (by decide)⟩
  · simp only [hd, h, Bool.not_true, Bool.and_false, Bool.false_eq_true, if_false]
    exact ⟨_, rfl, normalizeEnum_mem _ _ _ (by decide), normalizeEnum_mem _ _ _ (by decide),
      normalizeEnum_mem _ _ _ (by decide), normalizeEnum_mem _ _ _ (by decide),
      normalizeEnum_mem _ _ _ (by decide)⟩

/-- Witness for the C3 amended theorem at the all-unrecognized body. -/
theorem normalizeInput_policy_defaults_witness :
    (dateFormatOk (safeString unrecognizedPolicyBody.date) = true ∧
     timeFormatOk (safeString unrecognizedPolicyBody.time) = true) ∧
    (∃ r : NormInput, normalizeInput unrecognizedPolicyBody = Except.ok r ∧
      r.timeMode ∈ ["standard", "mean_solar", "true_solar"] ∧
      r.dayBoundaryMode ∈ ["23", "24"] ∧
      r.boundaryTimeRef ∈ ["standard", "used"] ∧
      r.sekkiBoundaryPrecision ∈ ["minute", "second"] ∧
      r.sekkiBoundaryTieBreak ∈ ["after", "before"]) :=
  ⟨⟨by decide, by decide⟩,
    normalizeInput_policy_defaults unrecognizedPolicyBody (by decide) (Or.inr (by decide))⟩

theorem countsSum_addStemCount (c : FiveCounts) (s : String)
    (h : (STEM_INFO s).isSome = true) :
    countsSum (addStemCount c s) = countsSum c + 1 := by
  unfold addStemCount
  cases hi : STEM_INFO s with
  | none => rw [hi] at h; simp at h
  | some info =>
    simp only [hi]
    rcases info with ⟨e, y⟩
    cases e <;> simp [bumpElem, countsSum] <;> omega

theorem countsSum_foldl (l : List String) (c : FiveCounts)
    (h : ∀ s ∈ l, (STEM_INFO s).isSome = true) :
    countsSum (l.foldl addStemCount c) = countsSum c + l.length := by
  induction l generalizing c with
  | nil => simp
  | cons s t ih =>
    simp only [List.foldl_cons, List.length_cons]
    rw [ih (addStemCount c s) (fun x hx => h x (List.mem_cons_of_mem _ hx)),
      countsSum_addStemCount c s (h s (List.mem_cons_self _ _))]
    omega

theorem zokan_stems_valid :
    ∀ b ∈ BRANCHES, ∀ s ∈ getZokan b, (STEM_INFO s).isSome = true := by
  decide

theorem countsSum_branchFold (bs : List String) (c : FiveCounts)
    (h : ∀ b ∈ bs, b ∈ BRANCHES) :
    countsSum (bs.foldl (fun c b => (getZokan b).foldl addStemCount c) c)
      = countsSum c + (bs.map (fun b => (getZokan b).length)).sum := by
  induction bs generalizing c with
  | nil => simp
  | cons b t ih =>
    simp only [List.foldl_cons, List.map_cons, List.sum_cons]
    rw [ih _ (fun x hx => h x (List.mem_cons_of_mem _ hx)),
      countsSum_foldl _ _ (zokan_stems_valid b (h b (List.mem_cons_self _ _)))]
    omega

/-- C7: for every chart — three visible stems plus an optional hour pillar,
each with its branch — the five element counters of
`calcFiveElementsCounts` sum to the number of visible stems (4 with an hour
pillar, 3 without) plus the total number of hidden stems of all occupied
branches. -/
theorem fiveElements_sum (yk mk dk yb mb db : String) (hp : Option (String × String))
    (hky : (STEM_INFO yk).isSome = true) (hkm : (STEM_INFO mk).isSome = true)
    (hkd : (STEM_INFO dk).isSome = true)
    (hkh : ∀ p ∈ hp, (STEM_INFO p.1).isSome = true)
    (hby : yb ∈ BRANCHES) (hbm : mb ∈ BRANCHES) (hbd : db ∈ BRANCHES)
    (hbh : ∀ p ∈ hp, p.2 ∈ BRANCHES) :
    countsSum (calcFiveElementsCounts ([yk, mk, dk] ++ (hp.map Prod.fst).toList)
        ([yb, mb, db] ++ (hp.map Prod.snd).toList))
      = (if hp.isSome then 4 else 3) +
        (([yb, mb, db] ++ (hp.map Prod.snd).toList).map
          (fun b => (getZokan b).length)).sum := by
  rcases hp with _ | ⟨p1, p2⟩
  · have hs_all : ∀ s ∈ [yk, mk, dk], (STEM_INFO s).isSome = true := by
      intro x hx
      fin_cases hx <;> assumption
    have hb_all : ∀ b ∈ [yb, mb, db], b ∈ BRANCHES := by
      intro x hx
      fin_cases hx <;> assumption
    simp only [Option.map_none', Option.toList_none, List.append_nil, Option.isSome_none,
      Bool.false_eq_true, if_false]
    unfold calcFiveElementsCounts
    rw [countsSum_branchFold _ _ hb_all, countsSum_foldl _ _ hs_all]
    simp [countsSum]
  · have hp1 : (STEM_INFO p1).isSome = true := hkh (p1, p2) rfl
    have hp2 : p2 ∈ BRANCHES := hbh (p1, p2) rfl
    have hs_all : ∀ s ∈ [yk, mk, dk, p1], (STEM_INFO s).isSome = true := by
      intro x hx
      fin_cases hx <;> assumption
    have hb_all : ∀ b ∈ [yb, mb, db, p2], b ∈ BRANCHES := by
      intro x hx
      fin_cases hx <;> assumption
    simp only [Option.map_some', Option.toList_some, Option.isSome_some, if_true]
    unfold calcFiveElementsCounts
    rw [show [yk, mk, dk] ++ [p1] = [yk, mk, dk, p1] from rfl,
      show [yb, mb, db] ++ [p2] = [yb, mb, db, p2] from rfl,
      countsSum_branchFold _ _ hb_all, countsSum_foldl _ _ hs_all]
    simp [countsSum]

/-- Witness for C7: a chart with year 庚辰, month 戊寅, day 甲子 and hour 丙午
satisfies the invariant (the right side evaluates to 4 + 9 = 13). -/
theorem fiveElements_sum_witness :
    ((STEM_INFO "庚").isSome = true ∧ (STEM_INFO "戊").isSome = true ∧
     (STEM_INFO "甲").isSome = true ∧ (STEM_INFO "丙").isSome = true ∧
     "辰" ∈ BRANCHES ∧ "寅" ∈ BRANCHES ∧ "子" ∈ BRANCHES ∧ "午" ∈ BRANCHES) ∧
    countsSum (calcFiveElementsCounts
        (["庚", "戊", "甲"] ++ ((some ("丙", "午")).map Prod.fst).toList)
        (["辰", "寅", "子"] ++ ((some ("丙", "午")).map Prod.snd).toList))
      = (if (some ("丙", "午")).isSome then 4 else 3) +
        ((["辰", "寅", "子"] ++ ((some ("丙", "午")).map Prod.snd).toList).map
          (fun b => (getZokan b).length)).sum :=
  ⟨⟨by decide, by decide, by decide, by decide, by decide, by decide, by decide, by decide⟩,
    fiveElements_sum "庚" "戊" "甲" "辰" "寅" "子" (some ("丙", "午"))
      (by decide) (by decide) (by decide) (fun p hp => by cases hp; decide)
      (by decide) (by decide) (by decide) (fun p hp => by cases hp; decide)⟩

/-- C8: for every pair of valid stems, `tenDeityOf` returns one of the ten
named categories and never `null`; moreover the element relation of the two
stems' elements is never the `"none"` fall-through. -/
theorem tenDeity_total (s₁ s₂ : String) (h₁ : s₁ ∈ STEMS) (h₂ : s₂ ∈ STEMS) :
    (tenDeityOf s₁ s₂).isSome = true ∧
    (tenDeityOf s₁ s₂).getD "" ∈ TEN_DEITY_NAMES ∧
    (∀ i₁ i₂ : StemInfo, STEM_INFO s₁ = some i₁ → STEM_INFO s₂ = some i₂ →
      elementRelation i₁.elem i₂.elem ≠ "none") := by
  fin_cases h₁ <;> fin_cases h₂ <;> decide

/-- Witness for C8 at the stem pair (甲, 乙). -/
theorem tenDeity_total_witness :
    ("甲" ∈ STEMS ∧ "乙" ∈ STEMS) ∧
    ((tenDeityOf "甲" "乙").isSome = true ∧
     (tenDeityOf "甲" "乙").getD "" ∈ TEN_DEITY_NAMES ∧
     (∀ i₁ i₂ : StemInfo, STEM_INFO "甲" = some i₁ → STEM_INFO "乙" = some i₂ →
       elementRelation i₁.elem i₂.elem ≠ "none")) :=
  ⟨⟨by decide, by decide⟩, tenDeity_total "甲" "乙" (by decide) (by decide)⟩

/-- C9 counterexample: take a chart whose day pillar is 甲子 (void branches
戌 and 亥) and the annual list centered on 2024.  Its 2018 entry has branch
戌, one of the excluded branches, yet no entry of the list carries a set
void flag — the claimed equivalence fails. -/
theorem nenun_void_flag_counterexample :
    ¬ (∀ e ∈ buildNenunList 2024,
        (e.isVoidPeriod = some true ↔ e.shi ∈ calcKuuBouFromDayPillar "甲" "子")) := by
  decide

theorem kuubou_excludes_decade : ∀ j : ℕ, j < 60 →
    (calcKuuBouFromDayPillar (sexagenaryFromIndex (j : ℤ)).kan
        (sexagenaryFromIndex (j : ℤ)).shi).length = 2 ∧
    (∀ s ∈ calcKuuBouFromDayPillar (sexagenaryFromIndex (j : ℤ)).kan
        (sexagenaryFromIndex (j : ℤ)).shi, s ∈ BRANCHES) ∧
    (∀ b ∈ BRANCHES,
      (b ∈ calcKuuBouFromDayPillar (sexagenaryFromIndex (j : ℤ)).kan
          (sexagenaryFromIndex (j : ℤ)).shi
        ↔ b ∉ decadeGroupBranches (j : ℤ))) := by
  decide

/-- C9 amended: the annual luck-cycle entries built by `buildNenunList`
carry no void flag (and a null ten-deity); the void pair itself lives in
the meishi layer — for every valid day pillar,
`calcKuuBouFromDayPillar` returns exactly the two branches excluded from
the day pillar's decade group. -/
theorem nenun_no_flag_kuubou_excluded (c : ℤ) (i : ℕ) (hi : i < 60) :
    (∀ e ∈ buildNenunList c, e.isVoidPeriod = none ∧ e.tenDeity = none) ∧
    ((calcKuuBouFromDayPillar (sexagenaryFromIndex (i : ℤ)).kan
        (sexagenaryFromIndex (i : ℤ)).shi).length = 2 ∧
     (∀ s ∈ calcKuuBouFromDayPillar (sexagenaryFromIndex (i : ℤ)).kan
        (sexagenaryFromIndex (i : ℤ)).shi, s ∈ BRANCHES) ∧
     (∀ b ∈ BRANCHES,
       (b ∈ calcKuuBouFromDayPillar (sexagenaryFromIndex (i : ℤ)).kan
           (sexagenaryFromIndex (i : ℤ)).shi
         ↔ b ∉ decadeGroupBranches (i : ℤ)))) := by
  constructor
  · intro e he
    simp only [buildNenunList, List.mem_map] at he
    obtain ⟨k, _, rfl⟩ := he
    exact ⟨rfl, rfl⟩
  · exact kuubou_excludes_decade i hi

/-- Witness for the C9 amended theorem at center year 2024 and day-pillar
index 0 (甲子). -/
theorem nenun_no_flag_kuubou_excluded_witness :
    (0 : ℕ) < 60 ∧
    ((∀ e ∈ buildNenunList 2024, e.isVoidPeriod = none ∧ e.tenDeity = none) ∧
     ((calcKuuBouFromDayPillar (sexagenaryFromIndex ((0 : ℕ) : ℤ)).kan
         (sexagenaryFromIndex ((0 : ℕ) : ℤ)).shi).length = 2 ∧
      (∀ s ∈ calcKuuBouFromDayPillar (sexagenaryFromIndex ((0 : ℕ) : ℤ)).kan
         (sexagenaryFromIndex ((0 : ℕ) : ℤ)).shi, s ∈ BRANCHES) ∧
      (∀ b ∈ BRANCHES,
        (b ∈ calcKuuBouFromDayPillar (sexagenaryFromIndex ((0 : ℕ) : ℤ)).kan
            (sexagenaryFromIndex ((0 : ℕ) : ℤ)).shi
          ↔ b ∉ decadeGroupBranches ((0 : ℕ) : ℤ))))) :=
  ⟨by decide, nenun_no_flag_kuubou_excluded 2024 0 (by decide)⟩

/-- C5: for every year and every per-angle instant assignment under which
the twelve instants are pairwise distinct (always the case for the actual
ephemeris, whose twelve crossings are about a month apart),
`buildJie12Utc` returns exactly 12 events, whose angles are (a permutation
of) the twelve 30°-spaced month-boundary angles, pairwise distinct, and
whose instants are in strictly increasing order. -/
theorem buildJie12_twelve_distinct_increasing (termTime : ℤ → ℤ → ℤ) (year : ℤ)
    (hdist : (JIE12_FOR_MONTH.map (fun j => termTime year j.angle)).Nodup) :
    (buildJie12Utc termTime year).length = 12 ∧
    ((buildJie12Utc termTime year).map JieEvent.angle).Perm
      [315, 345, 15, 45, 75, 105, 135, 165, 195, 225, 255, 285] ∧
    ((buildJie12Utc termTime year).map JieEvent.angle).Nodup ∧
    (buildJie12Utc termTime year).Chain' (fun a b => a.timeUtcMs < b.timeUtcMs) := by
  have hperm : (buildJie12Utc termTime year).Perm
      (JIE12_FOR_MONTH.map (fun j => JieEvent.mk j.name j.angle (termTime year j.angle))) :=
    List.mergeSort_perm _ _
  have hangles : (JIE12_FOR_MONTH.map
      (fun j => JieEvent.mk j.name j.angle (termTime year j.angle))).map JieEvent.angle
      = [315, 345, 15, 45, 75, 105, 135, 165, 195, 225, 255, 285] := rfl
  have hanglesperm : ((buildJie12Utc termTime year).map JieEvent.angle).Perm
      [315, 345, 15, 45, 75, 105, 135, 165, 195, 225, 255, 285] := by
    rw [← hangles]
    exact hperm.map _
  refine ⟨?_, hanglesperm, ?_, ?_⟩
  · have := hperm.length_eq
    simpa using this
  · exact hanglesperm.nodup_iff.mpr (by decide)
  · have htimes : (JIE12_FOR_MONTH.map
        (fun j => JieEvent.mk j.name j.angle (termTime year j.angle))).map JieEvent.timeUtcMs
        = JIE12_FOR_MONTH.map (fun j => termTime year j.angle) := rfl
    have hnodupT : ((buildJie12Utc termTime year).map JieEvent.timeUtcMs).Nodup := by
      refine (List.Perm.nodup_iff (hperm.map _)).mpr ?_
      rw [htimes]
      exact hdist
    have hpairne : (buildJie12Utc termTime year).Pairwise
        (fun a b => a.timeUtcMs ≠ b.timeUtcMs) := by
      rw [List.Nodup, List.pairwise_map] at hnodupT
      exact hnodupT
    have hpairle : (buildJie12Utc termTime year).Pairwise
        (fun a b => decide (a.timeUtcMs ≤ b.timeUtcMs) = true) := by
      apply List.sorted_mergeSort
      · intro a b c hab hbc
        simp only [decide_eq_true_eq] at *
        omega
      · intro a b
        simp only [Bool.or_eq_true, decide_eq_true_eq]
        omega
    have hpairlt : (buildJie12Utc termTime year).Pairwise
        (fun a b => a.timeUtcMs < b.timeUtcMs) := by
      refine (hpairle.and hpairne).imp ?_
      intro a b hab
      rcases hab with ⟨hle, hne⟩
      simp only [decide_eq_true_eq] at hle
      omega
    exact hpairlt.chain'

/-- Witness for C5: the identity-like oracle assigning each angle its own
value as instant has pairwise distinct instants, so the conclusion holds at
year 2024. -/
theorem buildJie12_twelve_distinct_increasing_witness :
    (JIE12_FOR_MONTH.map (fun j => (fun (_ a : ℤ) => a) 2024 j.angle)).Nodup ∧
    ((buildJie12Utc (fun (_ a : ℤ) => a) 2024).length = 12 ∧
     ((buildJie12Utc (fun (_ a : ℤ) => a) 2024).map JieEvent.angle).Perm
       [315, 345, 15, 45, 75, 105, 135, 165, 195, 225, 255, 285] ∧
     ((buildJie12Utc (fun (_ a : ℤ) => a) 2024).map JieEvent.angle).Nodup ∧
     (buildJie12Utc (fun (_ a : ℤ) => a) 2024).Chain'
       (fun a b => a.timeUtcMs < b.timeUtcMs)) :=
  ⟨by decide, buildJie12_twelve_distinct_increasing (fun (_ a : ℤ) => a) 2024 (by decide)⟩

set_option maxRecDepth 40000 in
/-- C2 counterexample: under an oracle with no sign change anywhere (for
instance one reporting a constant positive angular difference), both scan
windows find no bracket, the solver returns the deterministic fallback
(the guessed date 2024-02-04 at 12:00 JST) — and the result is *not*
flagged: it carries no degraded marker, contradicting the claim that the
event is flagged degraded on this path. -/
theorem solver_fallback_not_flagged_counterexample :
    scanForSignChange (fun _ => (1 : ℚ)) (utcMs 2024 2 4 (0 - 9) 0 0)
      (utcMs 2024 2 4 (0 - 9) 0 0 + 8 * 86400000) 3600000 = none ∧
    scanForSignChange (fun _ => (1 : ℚ)) (utcMs 2024 2 4 (0 - 9) 0 0 - 5 * 86400000)
      (utcMs 2024 2 4 (0 - 9) 0 0 + 8 * 86400000 + 5 * 86400000) 3600000 = none ∧
    findSolarTermTimeJst (fun _ => (1 : ℚ)) 2024 315 "minute"
      = formatTermResultJst (utcMs 2024 2 4 (12 - 9) 0 0) 315 ∧
    ¬ ((findSolarTermTimeJst (fun _ => (1 : ℚ)) 2024 315 "minute").degraded = some true) := by
  decide

/-- C2 amended: whenever neither scan window of `findSolarTermTimeJst`
finds a sign-change bracket, the solver returns the deterministic fallback
instant derived from the initial guess (the guessed date at 12:00 JST) and,
being a total function, raises nothing — but the result carries no
degraded marker (`degraded` is absent/`none`), indistinguishable from a
successful result. -/
theorem solver_fallback_unflagged (diff : ℤ → ℚ) (year angle : ℤ) (precision : String)
    (h1 : scanForSignChange diff
        (utcMs (guessSolarTermDateJst year angle).1 (guessSolarTermDateJst year angle).2.1
          (guessSolarTermDateJst year angle).2.2 (0 - 9) 0 0)
        (utcMs (guessSolarTermDateJst year angle).1 (guessSolarTermDateJst year angle).2.1
          (guessSolarTermDateJst year angle).2.2 (0 - 9) 0 0 + 8 * 86400000)
        3600000 = none)
    (h2 : scanForSignChange diff
        (utcMs (guessSolarTermDateJst year angle).1 (guessSolarTermDateJst year angle).2.1
          (guessSolarTermDateJst year angle).2.2 (0 - 9) 0 0 - 5 * 86400000)
        (utcMs (guessSolarTermDateJst year angle).1 (guessSolarTermDateJst year angle).2.1
          (guessSolarTermDateJst year angle).2.2 (0 - 9) 0 0 + 8 * 86400000 + 5 * 86400000)
        3600000 = none) :
    findSolarTermTimeJst diff year angle precision
      = formatTermResultJst
          (utcMs (guessSolarTermDateJst year angle).1 (guessSolarTermDateJst year angle).2.1
            (guessSolarTermDateJst year angle).2.2 (12 - 9) 0 0) angle ∧
    (findSolarTermTimeJst diff year angle precision).degraded = none := by
  unfold findSolarTermTimeJst
  simp only [h1, h2]
  exact ⟨trivial, rfl⟩

set_option maxRecDepth 40000 in
/-- Witness for the C2 amended theorem under the constant-positive oracle at
(2024, 315°, minute precision). -/
theorem solver_fallback_unflagged_witness :
    (scanForSignChange (fun _ => (1 : ℚ))
        (utcMs (guessSolarTermDateJst 2024 315).1 (guessSolarTermDateJst 2024 315).2.1
          (guessSolarTermDateJst 2024 315).2.2 (0 - 9) 0 0)
        (utcMs (guessSolarTermDateJst 2024 315).1 (guessSolarTermDateJst 2024 315).2.1
          (guessSolarTermDateJst 2024 315).2.2 (0 - 9) 0 0 + 8 * 86400000)
        3600000 = none) ∧
    (findSolarTermTimeJst (fun _ => (1 : ℚ)) 2024 315 "minute"
      = formatTermResultJst
          (utcMs (guessSolarTermDateJst 2024 315).1 (guessSolarTermDateJst 2024 315).2.1
            (guessSolarTermDateJst 2024 315).2.2 (12 - 9) 0 0) 315 ∧
     (findSolarTermTimeJst (fun _ => (1 : ℚ)) 2024 315 "minute").degraded = none) :=
  ⟨by decide,
    solver_fallback_unflagged (fun _ => (1 : ℚ)) 2024 315 "minute" (by decide) (by decide)⟩

/-- C1 counterexample: the claim predicts that with `boundaryTimeRef =
"standard"` the pillar year is decided by the chosen civil (standard)
instant.  At second precision with tie-break `"after"`, take the civil
instant 2000-02-04 20:30:00 JST (raw JST seconds 949696200), 623 s before
the risshun crossing of civil year 2000 at 20:40:23 JST (949696823), and
the corrected instant obtained from it by the +18.76 min Tokyo mean-solar
correction, 20:48:45 JST (949697325), after the crossing: the handler
decides by the corrected instant and assigns pillar year 2000, while the
claim's formula assigns 1999. -/
theorem yearPillar_boundaryTimeRef_counterexample :
    ¬ (handlerYearPillarYear 949696200 949697325 949696823 2000 "second" "after" "standard"
        = (if isBeforeBoundaryPrec
              (dayPillarTimeRef 949696200 949697325 "standard") 949696823 "second" "after"
           then 2000 - 1 else 2000)) := by
  decide

/-- C1 amended: the Phase B+ handler's year pillar is decided by the
corrected ("used") instant alone — the pillar year is the used instant's
civil year minus one exactly when that instant is before the risshun
crossing at the policy's precision and tie-break, and the civil year
otherwise; the civil (standard) instant and the `boundaryTimeRef` policy
value do not influence it (`boundaryTimeRef` only selects the day pillar's
reference instant). -/
theorem yearPillar_uses_corrected_instant (stdSec usedSec risshunSec usedY : ℤ)
    (precision tieBreak boundaryTimeRef : String) :
    (handlerYearPillarYear stdSec usedSec risshunSec usedY precision tieBreak boundaryTimeRef
        = usedY - 1
      ↔ isBeforeBoundaryPrec usedSec risshunSec precision tieBreak = true) ∧
    (handlerYearPillarYear stdSec usedSec risshunSec usedY precision tieBreak boundaryTimeRef
        = usedY
      ↔ isBeforeBoundaryPrec usedSec risshunSec precision tieBreak = false) ∧
    (∀ (stdSec2 : ℤ) (boundaryTimeRef2 : String),
      handlerYearPillarYear stdSec usedSec risshunSec usedY precision tieBreak boundaryTimeRef
        = handlerYearPillarYear stdSec2 usedSec risshunSec usedY precision tieBreak
            boundaryTimeRef2) := by
  unfold handlerYearPillarYear
  by_cases h : isBeforeBoundaryPrec usedSec risshunSec precision tieBreak <;>
    simp [h] <;> omega

end Shichu
